import Mathlib

/-!
Shallow embedding of the cultural-bias measurement core of the worldWiseAI
repository, together with theorems settling the specification claims.

The embedding follows the source files:
  * `response_parser.py` — structured extraction from raw LLM text
    (`ParsedResponse`, `ResponseParser.parse_response` and its helpers,
    including the exact backtracking semantics of the regular expressions
    used for the DECISION / TOP_VALUES / EXPLANATION sections);
  * `config.py` — cultural dimensions, Hofstede reference profiles and the
    stereotype indicator list;
  * `evaluator.py` — `CulturalEvaluator.calculate_cultural_alignment`,
    `CulturalEvaluator._infer_cultural_profile`,
    `CulturalEvaluator.calculate_stereotype_score` and the module-level
    `calculate_baseline_bias`.

Python strings are modelled as `String` / `List Char`; Python `None` as
`Option`; float arithmetic as `ℝ` (or `ℚ` where the computation is exact);
the external sentence-embedding collaborator as an explicit parameter.
-/

/-- Structured representation of an LLM response
(`response_parser.ParsedResponse`). -/
structure ParsedResponse where
  raw_text : String
  explanation : String
  decision : Option String
  top_values : List String
  parse_success : Bool
  parse_errors : List String
deriving DecidableEq

/-! ### Character-list utilities mirroring Python string primitives -/

/-- Lowercasing a string, as Python `str.lower()` on ASCII text. -/
def strToLower (s : String) : String :=
  ⟨s.data.map Char.toLower⟩

/-- Whether `needle` is a prefix of `hay` (exact character match). -/
def listIsPrefixOf : List Char → List Char → Bool
  | [], _ => true
  | _ :: _, [] => false
  | a :: ns, b :: hs => a = b && listIsPrefixOf ns hs

/-- Python's substring test `needle in hay`. -/
def listHasSub (needle : List Char) : List Char → Bool
  | [] => needle.isEmpty
  | c :: rest => listIsPrefixOf needle (c :: rest) || listHasSub needle rest

/-- Substring test on `String`s, as Python's `in` operator. -/
def strContainsSub (needle hay : String) : Bool :=
  listHasSub needle.data hay.data

/-- Number of starting positions at which `needle` occurs inside a character
list (counts every, possibly overlapping, occurrence). -/
def countOcc (needle : List Char) : List Char → Nat
  | [] => if needle.isEmpty then 1 else 0
  | c :: rest => (if listIsPrefixOf needle (c :: rest) then 1 else 0) + countOcc needle rest

/-- Case-insensitive prefix test: `marker` (already lowercase) against the
lowercased head of the text. -/
def matchesCI : List Char → List Char → Bool
  | [], _ => true
  | _ :: _, [] => false
  | m :: ms, c :: cs => m = c.toLower && matchesCI ms cs

/-- Python `str.strip()` on a character list. -/
def pyStripL (l : List Char) : List Char :=
  ((l.dropWhile Char.isWhitespace).reverse.dropWhile Char.isWhitespace).reverse

/-- Python `str.strip()` on a `String`. -/
def pyStripS (s : String) : String :=
  ⟨pyStripL s.data⟩

/-- Characters stripped by Python's `str.strip('[]')`. -/
def isBracketChar (c : Char) : Bool :=
  c = '[' || c = ']'

/-- Python `str.strip('[]')` on a character list. -/
def pyStripBrackets (l : List Char) : List Char :=
  ((l.dropWhile isBracketChar).reverse.dropWhile isBracketChar).reverse

/-- Python `str.replace('\n', ' ')`. -/
def replaceNl (l : List Char) : List Char :=
  l.map (fun c => if c = '\n' then ' ' else c)

/-- Helper for whitespace-run collapsing: the flag records whether the
previous emitted character position ended inside a whitespace run. -/
def collapseWsAux : Bool → List Char → List Char
  | _, [] => []
  | prevWs, c :: rest =>
    if c.isWhitespace then
      (if prevWs then [] else [' ']) ++ collapseWsAux true rest
    else c :: collapseWsAux false rest

/-- Python `re.sub(r'\s+', ' ', s)`: collapse each whitespace run to one
space. -/
def collapseWs (l : List Char) : List Char :=
  collapseWsAux false l

/-- Split a character list at every separator character, keeping empty
pieces, as Python `str.split(sep)`. -/
def pySplitOnP (p : Char → Bool) : List Char → List (List Char)
  | [] => [[]]
  | c :: rest =>
    let r := pySplitOnP p rest
    if p c then [] :: r
    else
      match r with
      | h :: t => (c :: h) :: t
      | [] => [[c]]

/-- Python's argumentless `str.split()`: whitespace-delimited words, empty
pieces dropped. -/
def pyWordsL (l : List Char) : List (List Char) :=
  (pySplitOnP Char.isWhitespace l).filter (fun w => !w.isEmpty)

/-! ### Regular-expression semantics of `ResponseParser`

Each compiled pattern of `response_parser.py` is realized as a specialized
matcher with the backtracking behaviour of Python's `re` module: the
marker is searched case-insensitively left to right, `\s*` is greedy with
backtracking, and the lazy group `(.+?)` stops at the first position where
the pattern's continuation (or lookahead) succeeds. -/

/-- Backtracking of a greedy `\s*`: try consuming `k` characters of the
whitespace run, largest first, and run the continuation on the rest. -/
def wsTry (attempt : List Char → Option α) (l : List Char) : Nat → Option α
  | 0 => attempt l
  | k + 1 =>
    match attempt (l.drop (k + 1)) with
    | some a => some a
    | none => wsTry attempt l k

/-- Greedy `\s*` followed by a continuation, with full backtracking. -/
def wsBacktrack (attempt : List Char → Option α) (l : List Char) : Option α :=
  wsTry attempt l ((l.takeWhile Char.isWhitespace).length)

/-- Scan the text for a case-insensitive occurrence of `marker` whose
continuation succeeds, as `re.search` on a marker-anchored pattern. -/
def searchMarker (marker : List Char) (attempt : List Char → Option α) : List Char → Option α
  | [] => none
  | c :: rest =>
    match (if matchesCI marker (c :: rest) then attempt ((c :: rest).drop marker.length) else none) with
    | some a => some a
    | none => searchMarker marker attempt rest

/-- Continuation of `DECISION:\s*` in `(.+?)(?:\n|$)` (MULTILINE, no
DOTALL): needs one non-newline character and captures up to the next
newline or the end of the text. -/
def decisionGroup : List Char → Option (List Char)
  | [] => none
  | c :: rest =>
    if c = '\n' then none
    else some (c :: rest.takeWhile (fun x => !(x == '\n')))

/-- Body of the lazy group of `TOP_VALUES:\s*(.+?)(?=\n\n|\Z)` (DOTALL):
capture until a blank line (`\n\n`) lookahead or the end of the text. -/
def valuesBody : List Char → List Char
  | '\n' :: '\n' :: _ => []
  | c :: rest => c :: valuesBody rest
  | [] => []

/-- Continuation of `TOP_VALUES:\s*`: the lazy group needs at least one
character. -/
def valuesGroup : List Char → Option (List Char)
  | [] => none
  | c :: rest => some (c :: valuesBody rest)

/-- Continuation of `EXPLANATION:\s*` in `(.+)$` (DOTALL): greedy capture
of everything to the end, needing at least one character. -/
def explanationGroup : List Char → Option (List Char)
  | [] => none
  | c :: rest => some (c :: rest)

/-- Lazy group with a lookahead: consume characters until `look` holds at
the current position, returning the captured group and the rest of the
text (the match ends at the zero-width lookahead). -/
def lazyGroupAux (look : List Char → Bool) : List Char → List Char × List Char
  | [] => ([], [])
  | c :: rest =>
    if look (c :: rest) then ([], c :: rest)
    else
      let p := lazyGroupAux look rest
      (c :: p.1, p.2)

/-- Lazy group `(.+?)` with lookahead `look`: at least one character, then
`lazyGroupAux`. -/
def lazyGroup (look : List Char → Bool) : List Char → Option (List Char × List Char)
  | [] => none
  | c :: rest =>
    let p := lazyGroupAux look rest
    some (c :: p.1, p.2)

/-- Non-overlapping `findall` scan: at every position where `start` holds,
skip `skip` characters, then run `\s*` (backtracking) and the lazy group
with lookahead `look`; on success continue after the match, otherwise
advance one character.  `fuel` bounds the recursion and is instantiated
with the length of the input plus one, which every scan respects since each
step consumes at least one character. -/
def findallFuel (start : List Char → Bool) (skip : List Char → Nat)
    (look : List Char → Bool) : Nat → List Char → List (List Char)
  | 0, _ => []
  | _ + 1, [] => []
  | fuel + 1, c :: rest =>
    if start (c :: rest) then
      let body := (c :: rest).drop (skip (c :: rest))
      match wsTry (lazyGroup look) body ((body.takeWhile Char.isWhitespace).length) with
      | some pr => pr.1 :: findallFuel start skip look fuel pr.2
      | none => findallFuel start skip look fuel rest
    else findallFuel start skip look fuel rest

/-- Test for `\d+\.` at the head of the text: a maximal nonempty digit run
followed by a literal dot. -/
def digitsDot (l : List Char) : Bool :=
  let ds := l.takeWhile Char.isDigit
  !ds.isEmpty &&
    (match l.drop ds.length with
     | '.' :: _ => true
     | _ => false)

/-- Lookahead `(?=\s*\n\s*\d+\.|\s*\n\s*-|\s*\n\s*\n|\Z)` of the numbered
item pattern: a whitespace run containing a newline followed by a numbered
item or a dash, a whitespace run containing two newlines, or the end of
the text. -/
def numLookahead (l : List Char) : Bool :=
  let ws := l.takeWhile Char.isWhitespace
  let rest := l.drop ws.length
  let hasNl := ws.contains '\n'
  (hasNl && digitsDot rest) ||
    (hasNl &&
      (match rest with
       | '-' :: _ => true
       | _ => false)) ||
    ((ws.filter (fun c => c == '\n')).length ≥ 2) ||
    l.isEmpty

/-- Start condition of a bullet item: one of the characters `-`, `•`, `*`. -/
def bulletStart : List Char → Bool
  | c :: _ => c = '-' || c = '•' || c = '*'
  | [] => false

/-- Lookahead `(?=\n[-•*]|\Z)` of the bullet item pattern. -/
def bulletLookahead : List Char → Bool
  | [] => true
  | '\n' :: c :: _ => c = '-' || c = '•' || c = '*'
  | _ => false

/-- All matches of the numbered-item pattern
`\d+\.\s*(.+?)(?=\s*\n\s*\d+\.|\s*\n\s*-|\s*\n\s*\n|\Z)` in the values
text. -/
def numberedFindall (l : List Char) : List (List Char) :=
  findallFuel digitsDot (fun t => (t.takeWhile Char.isDigit).length + 1) numLookahead
    (l.length + 1) l

/-- All matches of the bullet pattern `[-•*]\s*(.+?)(?=\n[-•*]|\Z)` in the
values text. -/
def bulletFindall (l : List Char) : List (List Char) :=
  findallFuel bulletStart (fun _ => 1) bulletLookahead (l.length + 1) l

/-! ### `ResponseParser` extraction functions -/

/-- The synonym-based normalization of the extracted decision text
(`ResponseParser._extract_decision`, after the regex match). -/
def categorizeDecision (decision : String) : String :=
  let dl := strToLower decision
  if ["option a", "prioritize personal", "personal goal", "freedom"].any
      (fun x => strContainsSub x dl) then "Option A"
  else if ["option b", "prioritize family", "family harmony", "group"].any
      (fun x => strContainsSub x dl) then "Option B"
  else if strContainsSub "compromise" dl || strContainsSub "middle ground" dl then "Compromise"
  else if strContainsSub "decline" dl || strContainsSub "neither" dl then "Decline"
  else decision

/-- `ResponseParser._extract_decision`: search
`DECISION:\s*(.+?)(?:\n|$)` case-insensitively, strip the group and
normalize it. -/
def extract_decision (text : String) : Option String :=
  match searchMarker "decision:".data (wsBacktrack decisionGroup) text.data with
  | none => none
  | some g => some (categorizeDecision ⟨pyStripL g⟩)

/-- `ResponseParser._extract_explanation`: search
`EXPLANATION:\s*(.+)$`, strip the group and collapse whitespace runs. -/
def extract_explanation (text : String) : String :=
  match searchMarker "explanation:".data (wsBacktrack explanationGroup) text.data with
  | none => ""
  | some g => ⟨collapseWs (pyStripL g)⟩

/-- Item cleanup of the numbered branch:
`v.strip().strip('[]').replace('\n', ' ').strip()`. -/
def cleanNumberedItem (v : List Char) : String :=
  ⟨pyStripL (replaceNl (pyStripBrackets (pyStripL v)))⟩

/-- Item cleanup of the bullet, comma and line branches:
`v.strip().strip('[]').strip()`. -/
def cleanPlainItem (v : List Char) : String :=
  ⟨pyStripL (pyStripBrackets (pyStripL v))⟩

/-- `ResponseParser._extract_values`: locate the `TOP_VALUES:` section and
try, in order, the numbered, bullet, comma-separated and line-separated
grammars, truncating to three items. -/
def extract_values (text : String) : List String :=
  match searchMarker "top_values:".data (wsBacktrack valuesGroup) text.data with
  | none => []
  | some values_text =>
    let numbered := numberedFindall values_text
    if !numbered.isEmpty then
      (numbered.take 3).map cleanNumberedItem
    else
      let bullets := bulletFindall values_text
      if !bullets.isEmpty then
        (bullets.take 3).map cleanPlainItem
      else if values_text.contains ',' then
        ((pySplitOnP (fun c => c == ',') values_text).map cleanPlainItem).take 3
      else
        ((pySplitOnP (fun c => c == '\n') values_text).filterMap
          (fun ln => if (pyStripL ln).isEmpty then none else some (cleanPlainItem ln))).take 3

/-- Python truthiness of an `Optional[str]`: neither `None` nor the empty
string. -/
def optStrTruthy : Option String → Bool
  | none => false
  | some s => !(s == "")

/-- `ResponseParser.parse_response`: extract the explanation, decision and
values, record an error for each missing piece, and succeed exactly when no
error was recorded. -/
def parse_response (text : String) : ParsedResponse :=
  let explanation := extract_explanation text
  let decision := extract_decision text
  let errs₁ : List String :=
    if optStrTruthy decision then [] else ["Could not extract DECISION"]
  let top_values := extract_values text
  let errs : List String :=
    errs₁ ++ (if top_values.isEmpty then ["Could not extract TOP_VALUES"] else [])
  { raw_text := text
    explanation := explanation
    decision := decision
    top_values := top_values
    parse_success := errs.isEmpty
    parse_errors := errs }

/-! ### Claims about the Response Structure Extractor -/

/-- Raw text of the round-trip scenario of claim C8. -/
def c8Text : String :=
  "...\nDECISION: Option B - prioritize family\n\nTOP_VALUES:\n1. Family Harmony\n2. Duty/Obligation\n3. Group Consensus\n\nEXPLANATION: I value family above all.\n"

/-- Raw text exhibiting a non-null empty-string decision: the `DECISION:`
marker is followed only by trailing whitespace at the end of the text, so
the regex group is pure whitespace and strips to the empty string. -/
def c7Text : String :=
  "TOP_VALUES:\n1. X\n\nDECISION:  "

/-- Raw text whose `TOP_VALUES` section body is a single comma. -/
def c10Text : String :=
  "DECISION: Option A\nTOP_VALUES: ,\n\nx"

/-- Claim C8: the round-trip raw text parses to decision `Option B`, the
three expected value labels, and a successful extraction. -/
theorem claim_C8 :
    (parse_response c8Text).decision = some "Option B" ∧
    (parse_response c8Text).top_values = ["Family Harmony", "Duty/Obligation", "Group Consensus"] ∧
    (parse_response c8Text).parse_success = true := by
  decide

/-- Claim C7, counterexample: on `c7Text` the parser produces the non-null
decision `some ""` and the non-empty value list `["X"]`, yet extraction
fails, so `extraction_succeeded` is not equivalent to
`decision ≠ null ∧ selected_values ≠ []` as the claim states. -/
theorem claim_C7_counterexample :
    ¬ ((parse_response c7Text).parse_success = true ↔
        ((parse_response c7Text).decision ≠ none ∧ (parse_response c7Text).top_values ≠ [])) := by
  decide

/-- Claim C7, amended: for every raw text, `extraction_succeeded = true`
iff the decision is neither null nor the empty string (Python truthiness)
and the selected values are non-empty; and `extraction_errors` is empty
iff extraction succeeded. -/
theorem claim_C7_amended (text : String) :
    ((parse_response text).parse_success = true ↔
      ((parse_response text).decision ≠ none ∧ (parse_response text).decision ≠ some "" ∧
        (parse_response text).top_values ≠ [])) ∧
    ((parse_response text).parse_errors = [] ↔ (parse_response text).parse_success = true) := by
  simp only [parse_response]
  cases hdec : extract_decision text with
  | none =>
    cases hval : extract_values text with
    | nil => simp [optStrTruthy]
    | cons a l => simp [optStrTruthy]
  | some s =>
    by_cases hs : s = ""
    · subst hs
      cases hval : extract_values text with
      | nil => simp [optStrTruthy]
      | cons a l => simp [optStrTruthy]
    · cases hval : extract_values text with
      | nil => simp [optStrTruthy, hs]
      | cons a l => simp [optStrTruthy, hs]

/-- Claim C10: on `c10Text` (a `TOP_VALUES` body consisting of a single
comma, with a decision marker present) the parser returns the non-empty
value list `["", ""]` — every element the empty string — and extraction
succeeds. -/
theorem claim_C10 :
    (parse_response c10Text).top_values = ["", ""] ∧
    (parse_response c10Text).top_values ≠ [] ∧
    (∀ v ∈ (parse_response c10Text).top_values, v = "") ∧
    (parse_response c10Text).decision = some "Option A" ∧
    (parse_response c10Text).parse_success = true := by
  decide

/-! ### Configuration data (`config.py`) -/

/-- The fixed closed set of six cultural dimensions
(`config.CULTURAL_DIMENSIONS` keys). -/
inductive CulturalDimension where
  | individualism
  | power_distance
  | masculinity
  | uncertainty_avoidance
  | long_term_orientation
  | indulgence
deriving DecidableEq

/-- The dimension list `config.CULTURAL_DIMENSIONS`, in source order. -/
def CULTURAL_DIMENSIONS : List CulturalDimension :=
  [.individualism, .power_distance, .masculinity, .uncertainty_avoidance,
   .long_term_orientation, .indulgence]

/-- One entry of `config.CULTURAL_CONTEXTS`: display data plus the
Hofstede reference profile, where `none` models Python `None`. -/
structure CulturalContext where
  name : String
  location : String
  description : String
  hofstede_scores : CulturalDimension → Option ℝ

/-- Reference profile of the baseline pseudo-culture: all dimensions
`None`. -/
def baselineScores : CulturalDimension → Option ℝ :=
  fun _ => none

/-- Hofstede scores of the `US` context. -/
noncomputable def usScores : CulturalDimension → Option ℝ
  | .power_distance => some (-1.0)
  | .individualism => some 2.0
  | .masculinity => some 1.0
  | .uncertainty_avoidance => some 0.0
  | .long_term_orientation => some (-1.5)
  | .indulgence => some 1.5

/-- Hofstede scores of the `Japan` context. -/
noncomputable def japanScores : CulturalDimension → Option ℝ
  | .power_distance => some 0.0
  | .individualism => some 0.0
  | .masculinity => some 2.0
  | .uncertainty_avoidance => some 2.0
  | .long_term_orientation => some 2.0
  | .indulgence => some (-1.0)

/-- Hofstede scores of the `India` context. -/
noncomputable def indiaScores : CulturalDimension → Option ℝ
  | .power_distance => some 1.5
  | .individualism => some 0.0
  | .masculinity => some 1.0
  | .uncertainty_avoidance => some (-1.0)
  | .long_term_orientation => some 0.0
  | .indulgence => some (-1.5)

/-- Hofstede scores of the `Mexico` context. -/
noncomputable def mexicoScores : CulturalDimension → Option ℝ
  | .power_distance => some 2.0
  | .individualism => some (-1.5)
  | .masculinity => some 1.5
  | .uncertainty_avoidance => some 2.0
  | .long_term_orientation => some (-1.5)
  | .indulgence => some 2.0

/-- Hofstede scores of the `UAE` context. -/
noncomputable def uaeScores : CulturalDimension → Option ℝ
  | .power_distance => some 2.0
  | .individualism => some (-1.5)
  | .masculinity => some 0.0
  | .uncertainty_avoidance => some 1.5
  | .long_term_orientation => some (-1.5)
  | .indulgence => some (-1.0)

/-- The `baseline` context record. -/
def baselineContext : CulturalContext :=
  ⟨"Baseline (No Cultural Context)", "No specific location", "neutral", baselineScores⟩

/-- The `US` context record. -/
noncomputable def usContext : CulturalContext :=
  ⟨"United States", "Austin, Texas, USA", "American", usScores⟩

/-- The `Japan` context record. -/
noncomputable def japanContext : CulturalContext :=
  ⟨"Japan", "Tokyo, Japan", "Japanese", japanScores⟩

/-- The `India` context record. -/
noncomputable def indiaContext : CulturalContext :=
  ⟨"India", "New Delhi, India", "Indian", indiaScores⟩

/-- The `Mexico` context record. -/
noncomputable def mexicoContext : CulturalContext :=
  ⟨"Mexico", "Mexico City, Mexico", "Mexican", mexicoScores⟩

/-- The `UAE` context record. -/
noncomputable def uaeContext : CulturalContext :=
  ⟨"United Arab Emirates", "Dubai, UAE", "Emirati", uaeScores⟩

/-- The dictionary `config.CULTURAL_CONTEXTS`, as an association list in
source order. -/
noncomputable def CULTURAL_CONTEXTS : List (String × CulturalContext) :=
  [("baseline", baselineContext), ("US", usContext), ("Japan", japanContext),
   ("India", indiaContext), ("Mexico", mexicoContext), ("UAE", uaeContext)]

/-- The fixed list `config.STEREOTYPE_INDICATORS`. -/
def STEREOTYPE_INDICATORS : List String :=
  ["always", "never", "all people", "everyone", "typical",
   "stereotypical", "generally", "usually", "tend to"]

/-! ### The Stereotype Density Scorer
(`CulturalEvaluator.calculate_stereotype_score`) -/

/-- `CulturalEvaluator.calculate_stereotype_score`: each stereotype
indicator present as a case-insensitive substring of the raw text counts
once; the count over the word count times 100 is the density, and the
score is `max(0, 10 - density * 20)`, with 10.0 for wordless text.  The
arithmetic is exact, so it is modelled over `ℚ`. -/
def calculate_stereotype_score (pr : ParsedResponse) : ℚ :=
  let text_lower := strToLower pr.raw_text
  let words := pyWordsL text_lower.data
  if words.isEmpty then 10
  else
    let stereotype_count := STEREOTYPE_INDICATORS.countP (fun ind => strContainsSub ind text_lower)
    let stereotype_density : ℚ := (stereotype_count : ℚ) / (words.length : ℚ) * 100
    max 0 (10 - stereotype_density * 20)

/-- The stereotype formula asserted by claim C3, stated from the
specification's words for comparison with the implementation: every
substring occurrence of every indicator phrase is counted, not just the
presence of each phrase. -/
def claimStereotypeScore (pr : ParsedResponse) : ℚ :=
  let text_lower := strToLower pr.raw_text
  let words := pyWordsL text_lower.data
  if words.isEmpty then 10
  else
    let occurrences := (STEREOTYPE_INDICATORS.map (fun ind => countOcc ind.data text_lower.data)).sum
    let density : ℚ := (occurrences : ℚ) / (words.length : ℚ) * 100
    max 0 (10 - density * 20)

/-- Raw text of the stereotype counterexample: 201 whitespace-separated
words in which the indicator `always` occurs twice. -/
def c3Text : String :=
  String.intercalate " " (List.replicate 199 "go" ++ ["always", "always"])

/-- Response wrapping `c3Text` (only `raw_text` matters to the stereotype
scorer). -/
def c3Resp : ParsedResponse :=
  ⟨c3Text, "", none, [], false, []⟩

set_option maxRecDepth 40000

/-- Claim C3, counterexample: on a 201-word text containing `always`
twice, the implementation counts the indicator once (presence), scoring
`10/201`, while the claim's occurrence-counting formula scores `0`. -/
theorem claim_C3_counterexample :
    calculate_stereotype_score c3Resp ≠ claimStereotypeScore c3Resp := by
  have hwne : (pyWordsL (strToLower c3Resp.raw_text).data).isEmpty = false := by decide
  have hw : (pyWordsL (strToLower c3Resp.raw_text).data).length = 201 := by decide
  have hc : STEREOTYPE_INDICATORS.countP
      (fun ind => strContainsSub ind (strToLower c3Resp.raw_text)) = 1 := by decide
  have ho : (STEREOTYPE_INDICATORS.map
      (fun ind => countOcc ind.data (strToLower c3Resp.raw_text).data)).sum = 2 := by decide
  unfold calculate_stereotype_score claimStereotypeScore
  simp only [hwne, hw, hc, ho, Bool.false_eq_true, if_false]
  norm_num

/-- Claim C3, amended: the stereotype score is
`max(0, 10 - density * 20)` where the density counts each indicator
phrase at most once — an indicator contributes `1` when it occurs at least
once as a case-insensitive substring of the raw text, regardless of how
many occurrences it has — divided by the word count and scaled by 100;
a text with no words scores exactly 10. -/
theorem claim_C3_amended (pr : ParsedResponse) :
    (pyWordsL (strToLower pr.raw_text).data = [] → calculate_stereotype_score pr = 10) ∧
    (pyWordsL (strToLower pr.raw_text).data ≠ [] →
      calculate_stereotype_score pr =
        max 0 (10 - 20 * ((100 * ((STEREOTYPE_INDICATORS.filter
            (fun ind => strContainsSub ind (strToLower pr.raw_text))).length : ℚ)) /
          ((pyWordsL (strToLower pr.raw_text).data).length : ℚ)))) := by
  constructor
  · intro h
    unfold calculate_stereotype_score
    simp [h]
  · intro h
    have hne : (pyWordsL (strToLower pr.raw_text).data).isEmpty = false := by
      cases hh : pyWordsL (strToLower pr.raw_text).data with
      | nil => exact absurd hh h
      | cons a l => rfl
    unfold calculate_stereotype_score
    simp only [hne, Bool.false_eq_true, if_false, List.countP_eq_length_filter]
    congr 1
    ring

/-- Witness for claim C3: the amended statement evaluated on a wordless
text (score 10) and on a two-word text. -/
theorem claim_C3_witness :
    (pyWordsL (strToLower (" " : String)).data = [] ∧
      calculate_stereotype_score ⟨" ", "", none, [], false, []⟩ = 10) ∧
    (pyWordsL (strToLower ("be nice" : String)).data ≠ [] ∧
      calculate_stereotype_score ⟨"be nice", "", none, [], false, []⟩ =
        max 0 (10 - 20 * ((100 * ((STEREOTYPE_INDICATORS.filter
            (fun ind => strContainsSub ind (strToLower ("be nice" : String)))).length : ℚ)) /
          ((pyWordsL (strToLower ("be nice" : String)).data).length : ℚ)))) :=
  ⟨⟨by decide, (claim_C3_amended ⟨" ", "", none, [], false, []⟩).1 (by decide)⟩,
   ⟨by decide, (claim_C3_amended ⟨"be nice", "", none, [], false, []⟩).2 (by decide)⟩⟩

/-! ### The Cultural Profile Inferencer
(`CulturalEvaluator._infer_cultural_profile`) -/

/-- The two poles of a cultural dimension's exemplar corpus. -/
inductive ExemplarPole where
  | high
  | low
deriving DecidableEq

/-- The exemplar corpus `CulturalEvaluator.dimension_exemplars`: five
representative phrases per dimension and pole, verbatim from the source. -/
def dimension_exemplars : CulturalDimension → ExemplarPole → List String
  | .individualism, .high =>
    ["personal freedom and authentic self-expression",
     "independent decision-making and self-determination",
     "pursuing individual aspirations and personal growth",
     "making autonomous choices based on personal values",
     "self-reliance and taking personal responsibility"]
  | .individualism, .low =>
    ["family harmony and collective welfare",
     "group consensus and shared decision-making",
     "maintaining relationships and social cohesion",
     "prioritizing community needs and group loyalty",
     "interdependence and fulfilling collective obligations"]
  | .power_distance, .high =>
    ["respecting authority and following established hierarchy",
     "honoring leadership and accepting status differences",
     "deferring to expertise and organizational structure",
     "maintaining proper roles and traditional order",
     "valuing seniority and hierarchical relationships"]
  | .power_distance, .low =>
    ["questioning authority and seeking equal participation",
     "challenging hierarchy and valuing egalitarian relationships",
     "expecting equal treatment regardless of position",
     "promoting democratic processes and shared power",
     "advocating for fairness and merit-based advancement"]
  | .masculinity, .high =>
    ["achieving excellence and pursuing competitive success",
     "demonstrating strength and winning recognition",
     "focusing on career advancement and material rewards",
     "emphasizing ambition and decisive leadership",
     "valuing assertiveness and professional accomplishment"]
  | .masculinity, .low =>
    ["nurturing relationships and supporting others wellbeing",
     "promoting cooperation and building harmonious connections",
     "balancing work with personal life quality",
     "emphasizing empathy and collaborative problem-solving",
     "valuing compassion and creating inclusive environments"]
  | .uncertainty_avoidance, .high =>
    ["following established rules and structured procedures",
     "maintaining stability and minimizing potential risks",
     "seeking clarity through detailed planning and guidelines",
     "preferring predictability and avoiding ambiguous situations",
     "relying on proven methods and formal processes"]
  | .uncertainty_avoidance, .low =>
    ["embracing flexibility and adapting to changes",
     "accepting ambiguity and exploring new possibilities",
     "taking calculated risks and trying innovative approaches",
     "welcoming uncertainty and improvising when needed",
     "valuing spontaneity and tolerating unstructured situations"]
  | .long_term_orientation, .high =>
    ["planning ahead and investing for future benefits",
     "practicing perseverance and accepting delayed gratification",
     "adapting traditions to fit modern circumstances",
     "building sustainable foundations and long-term security",
     "prioritizing future outcomes over immediate satisfaction"]
  | .long_term_orientation, .low =>
    ["honoring traditions and maintaining established customs",
     "seeking immediate results and present fulfillment",
     "valuing quick returns and current opportunities",
     "respecting conventional practices and proven wisdom",
     "focusing on todays needs and tangible outcomes"]
  | .indulgence, .high =>
    ["pursuing personal enjoyment and life satisfaction",
     "expressing desires freely and seeking happiness",
     "valuing leisure activities and personal gratification",
     "embracing spontaneous pleasures and fun experiences",
     "prioritizing wellbeing and allowing self-indulgence"]
  | .indulgence, .low =>
    ["exercising restraint and controlling impulses",
     "fulfilling duties before pursuing personal desires",
     "maintaining discipline and following strict norms",
     "suppressing immediate wants for greater purposes",
     "valuing moderation and resisting temptations"]

/-- The external semantic-embedding collaborator (the
`SentenceTransformer` model plus `util.cos_sim`), abstracted over its
vector type: equal inputs yield equal outputs by construction. -/
structure SemanticModel (α : Type) where
  encode : String → α
  cos_sim : α → α → ℝ

/-- The pre-encoded exemplars `CulturalEvaluator.encoded_exemplars`. -/
def encoded_exemplars (m : SemanticModel α) (dim : CulturalDimension)
    (pole : ExemplarPole) : List α :=
  (dimension_exemplars dim pole).map m.encode

/-- Python `f"{x}"` on an `Optional[str]`: `None` renders as the literal
string `None`. -/
def pyShowOptStr : Option String → String
  | none => "None"
  | some s => s

/-- The text blob assembled by `_infer_cultural_profile`:
`f"{explanation} {decision} "` followed by `" ".join(top_values)`. -/
def responseBlob (pr : ParsedResponse) : String :=
  pr.explanation ++ " " ++ pyShowOptStr pr.decision ++ " " ++
    String.intercalate " " pr.top_values

/-- Mean of a list of reals, as `tensor.mean()` / `np.mean`. -/
noncomputable def tensorMean (l : List ℝ) : ℝ :=
  l.sum / l.length

/-- Mean cosine similarity between the encoded response blob and one
pole's encoded exemplars (`avg_high` / `avg_low` in the source). -/
noncomputable def avg_pole_similarity (m : SemanticModel α) (pr : ParsedResponse)
    (dim : CulturalDimension) (pole : ExemplarPole) : ℝ :=
  tensorMean ((encoded_exemplars m dim pole).map (m.cos_sim (m.encode (responseBlob pr))))

/-- `np.clip(x, lo, hi)`. -/
noncomputable def pyClip (x lo hi : ℝ) : ℝ :=
  min (max x lo) hi

/-- `CulturalEvaluator._infer_cultural_profile`: an all-whitespace blob
short-circuits to the neutral all-zero profile; otherwise each dimension
scores `tanh((avg_high - avg_low) / (avg_high + avg_low)) * 2` when the
similarity sum is positive and `0` otherwise, clipped to `[-2, 2]`. -/
noncomputable def _infer_cultural_profile (m : SemanticModel α)
    (pr : ParsedResponse) : CulturalDimension → ℝ :=
  fun dim =>
    if pyStripS (responseBlob pr) = "" then 0
    else
      let avg_high := avg_pole_similarity m pr dim ExemplarPole.high
      let avg_low := avg_pole_similarity m pr dim ExemplarPole.low
      let similarity_sum := avg_high + avg_low
      let score : ℝ :=
        if similarity_sum > 0 then Real.tanh ((avg_high - avg_low) / similarity_sum) * 2
        else 0
      pyClip score (-2) 2

/-! ### The Alignment Scorer
(`CulturalEvaluator.calculate_cultural_alignment`) -/

/-- Dictionary lookup in an association list of cultural contexts. -/
def lookupContext (cultural_contexts : List (String × CulturalContext))
    (culture : String) : Option CulturalContext :=
  (cultural_contexts.find? (fun p => p.1 == culture)).map Prod.snd

/-- The check `all(v is None for v in expected_profile.values())`. -/
def allScoresNone (scores : CulturalDimension → Option ℝ) : Bool :=
  CULTURAL_DIMENSIONS.all (fun d => (scores d).isNone)

/-- `CulturalEvaluator.calculate_cultural_alignment`: `0.0` on parse
failure, `None` for the baseline pseudo-culture, `0.0` for an unknown
culture, `None` for a culture whose reference profile is all-`None`,
`5.0` when no relevant dimension has a usable reference value, and
otherwise `max(0, 10 - sqrt(mean(squared diffs)) * 2.5)`. -/
noncomputable def calculate_cultural_alignment (m : SemanticModel α)
    (pr : ParsedResponse) (culture : String)
    (scenario_dimensions : List CulturalDimension) : Option ℝ :=
  if !pr.parse_success then some 0
  else if culture = "baseline" then none
  else
    match lookupContext CULTURAL_CONTEXTS culture with
    | none => some 0
    | some ctx =>
      if allScoresNone ctx.hofstede_scores then none
      else
        let response_profile := _infer_cultural_profile m pr
        let distances := scenario_dimensions.filterMap
          (fun dim => (ctx.hofstede_scores dim).map
            (fun expected => (expected - response_profile dim) ^ 2))
        if distances.isEmpty then some 5
        else some (max 0 (10 - Real.sqrt (distances.sum / distances.length) * 2.5))

/-! ### The Baseline Bias Estimator
(module-level `calculate_baseline_bias` in `evaluator.py`) -/

/-- `evaluator.calculate_baseline_bias`: average the inferred profiles of
the successfully parsed baseline responses, then for every non-baseline
culture whose profile is not all-`None` return
`sqrt(mean over the given scenario_dimensions with non-None reference of
(reference - average)^2)`, skipping cultures with no usable dimension. -/
noncomputable def calculate_baseline_bias (m : SemanticModel α)
    (baseline_responses : List ParsedResponse)
    (cultural_contexts : List (String × CulturalContext))
    (scenario_dimensions : List CulturalDimension) : List (String × ℝ) :=
  let baseline_profiles := (baseline_responses.filter (fun r => r.parse_success)).map
    (fun r => _infer_cultural_profile m r)
  if baseline_profiles.isEmpty then []
  else
    let avg_baseline : CulturalDimension → ℝ := fun dim =>
      tensorMean (baseline_profiles.map (fun p => p dim))
    cultural_contexts.filterMap (fun p =>
      if p.1 = "baseline" then none
      else if allScoresNone p.2.hofstede_scores then none
      else
        let dist_squared := scenario_dimensions.filterMap
          (fun dim => (p.2.hofstede_scores dim).map
            (fun expected => (expected - avg_baseline dim) ^ 2))
        if dist_squared.isEmpty then none
        else some (p.1, Real.sqrt (dist_squared.sum / dist_squared.length)))

/-- The baseline bias estimator asserted by claim C1, stated from the
specification's words (§4.4 `estimate_baseline_bias`) for comparison with
the implementation: each successfully-extracted response contributes one
squared difference on its own scenario's designated primary dimension,
obtained through the external scenario lookup `primary_dimension_of`. -/
noncomputable def estimate_baseline_bias_spec (m : SemanticModel α)
    (baseline_responses : List (ParsedResponse × String))
    (cultural_contexts : List (String × CulturalContext))
    (primary_dimension_of : String → Option CulturalDimension) : List (String × ℝ) :=
  let pairs := (baseline_responses.filter (fun p => p.1.parse_success)).filterMap
    (fun p => (primary_dimension_of p.2).map (fun d => (d, _infer_cultural_profile m p.1 d)))
  cultural_contexts.filterMap (fun c =>
    if c.1 = "baseline" then none
    else if allScoresNone c.2.hofstede_scores then none
    else
      let sq := pairs.filterMap (fun pd => (c.2.hofstede_scores pd.1).map
        (fun e => (e - pd.2) ^ 2))
      if sq.isEmpty then none
      else some (c.1, Real.sqrt (sq.sum / sq.length)))

/-- Lookup of one culture's distance in an estimator result. -/
def lookupDistance (culture : String) (l : List (String × ℝ)) : Option ℝ :=
  (l.find? (fun p => p.1 == culture)).map Prod.snd

/-- A concrete embedding collaborator whose cosine similarities are all
zero (used to instantiate theorems on concrete inputs). -/
noncomputable def mZero : SemanticModel Unit :=
  ⟨fun _ => (), fun _ _ => 0⟩

/-! ### Claims about the Cultural Profile Inferencer -/

/-- Hyperbolic tangent is bounded by one in absolute value (used for the
clip-identity part of claim C5). -/
lemma abs_tanh_le_one (x : ℝ) : |Real.tanh x| ≤ 1 := by
  rw [Real.tanh_eq_sinh_div_cosh, abs_div, abs_of_pos (Real.cosh_pos x),
    div_le_one (Real.cosh_pos x), abs_le]
  constructor
  · have h := Real.sinh_lt_cosh (-x)
    rw [Real.sinh_neg, Real.cosh_neg] at h
    linarith
  · exact (Real.sinh_lt_cosh x).le

/-- Under the all-zero-similarity collaborator every inferred dimension
score is zero (the similarity sum is not positive, so the `tanh` branch is
never taken). -/
lemma infer_mZero (pr : ParsedResponse) (d : CulturalDimension) :
    _infer_cultural_profile mZero pr d = 0 := by
  unfold _infer_cultural_profile
  by_cases h : pyStripS (responseBlob pr) = ""
  · rw [if_pos h]
  · rw [if_neg h]
    have hz : ∀ p, avg_pole_similarity mZero pr d p = 0 := by
      intro p
      unfold avg_pole_similarity tensorMean
      simp [mZero]
    simp only [hz]
    norm_num [pyClip]

/-- The test response constructed in the `__main__` block of
`evaluator.py` (a convenient concrete successful response). -/
def sampleResp : ParsedResponse :=
  ⟨"Test response", "I prioritize family harmony", some "Option B",
   ["Family Harmony", "Duty/Obligation", "Group Consensus"], true, []⟩

/-- Claim C4: whenever the assembled blob is empty or all-whitespace,
`_infer_cultural_profile` returns the all-zero profile; since the result
is `0` for every collaborator `m`, the embedding collaborator is never
consulted. -/
theorem claim_C4 {α : Type} (m : SemanticModel α) (pr : ParsedResponse)
    (d : CulturalDimension) (h : pyStripS (responseBlob pr) = "") :
    _infer_cultural_profile m pr d = 0 := by
  unfold _infer_cultural_profile
  rw [if_pos h]

/-- A response whose blob is all-whitespace (empty explanation, empty
decision string, no values). -/
def emptyBlobResp : ParsedResponse :=
  ⟨"x", "", some "", [], true, []⟩

/-- Witness for claim C4 at a concrete all-whitespace-blob response. -/
theorem claim_C4_witness :
    pyStripS (responseBlob emptyBlobResp) = "" ∧
    _infer_cultural_profile mZero emptyBlobResp CulturalDimension.individualism = 0 :=
  ⟨by decide, claim_C4 mZero emptyBlobResp CulturalDimension.individualism (by decide)⟩

/-- Claim C5: for every non-empty blob and every dimension the inferred
score is exactly `tanh((avg_high - avg_low)/(avg_high + avg_low)) * 2`
when `avg_high + avg_low > 0` and `0` otherwise (the defensive clip never
alters the value, because `tanh` is bounded by one); and every inferred
profile value lies in `[-2, 2]`. -/
theorem claim_C5 :
    (∀ (α : Type) (m : SemanticModel α) (pr : ParsedResponse) (d : CulturalDimension),
      pyStripS (responseBlob pr) ≠ "" →
      _infer_cultural_profile m pr d =
        (if 0 < avg_pole_similarity m pr d ExemplarPole.high +
              avg_pole_similarity m pr d ExemplarPole.low
         then Real.tanh ((avg_pole_similarity m pr d ExemplarPole.high -
              avg_pole_similarity m pr d ExemplarPole.low) /
            (avg_pole_similarity m pr d ExemplarPole.high +
              avg_pole_similarity m pr d ExemplarPole.low)) * 2
         else 0)) ∧
    (∀ (α : Type) (m : SemanticModel α) (pr : ParsedResponse) (d : CulturalDimension),
      -2 ≤ _infer_cultural_profile m pr d ∧ _infer_cultural_profile m pr d ≤ 2) := by
  constructor
  · intro α m pr d h
    unfold _infer_cultural_profile
    rw [if_neg h]
    simp only [gt_iff_lt]
    by_cases hs : 0 < avg_pole_similarity m pr d ExemplarPole.high +
        avg_pole_similarity m pr d ExemplarPole.low
    · rw [if_pos hs]
      have ht := abs_tanh_le_one ((avg_pole_similarity m pr d ExemplarPole.high -
          avg_pole_similarity m pr d ExemplarPole.low) /
        (avg_pole_similarity m pr d ExemplarPole.high +
          avg_pole_similarity m pr d ExemplarPole.low))
      rw [abs_le] at ht
      unfold pyClip
      rw [max_eq_left (by linarith), min_eq_left (by linarith)]
    · rw [if_neg hs]
      norm_num [pyClip]
  · intro α m pr d
    unfold _infer_cultural_profile
    by_cases h : pyStripS (responseBlob pr) = ""
    · rw [if_pos h]
      norm_num
    · rw [if_neg h]
      simp only [gt_iff_lt]
      unfold pyClip
      constructor
      · exact le_min (le_max_right _ _) (by norm_num)
      · exact min_le_right _ _

/-- Witness for claim C5 at the concrete sample response (non-empty
blob). -/
theorem claim_C5_witness :
    pyStripS (responseBlob sampleResp) ≠ "" ∧
    _infer_cultural_profile mZero sampleResp CulturalDimension.individualism =
      (if 0 < avg_pole_similarity mZero sampleResp CulturalDimension.individualism ExemplarPole.high +
            avg_pole_similarity mZero sampleResp CulturalDimension.individualism ExemplarPole.low
       then Real.tanh ((avg_pole_similarity mZero sampleResp CulturalDimension.individualism ExemplarPole.high -
            avg_pole_similarity mZero sampleResp CulturalDimension.individualism ExemplarPole.low) /
          (avg_pole_similarity mZero sampleResp CulturalDimension.individualism ExemplarPole.high +
            avg_pole_similarity mZero sampleResp CulturalDimension.individualism ExemplarPole.low)) * 2
       else 0) ∧
    (-2 ≤ _infer_cultural_profile mZero sampleResp CulturalDimension.individualism ∧
      _infer_cultural_profile mZero sampleResp CulturalDimension.individualism ≤ 2) :=
  ⟨by decide, claim_C5.1 Unit mZero sampleResp CulturalDimension.individualism (by decide),
    claim_C5.2 Unit mZero sampleResp CulturalDimension.individualism⟩

/-! ### Claims about the Alignment Scorer -/

/-- A response whose extraction failed. -/
def failedResp : ParsedResponse :=
  ⟨"gibberish", "", none, [], false,
   ["Could not extract DECISION", "Could not extract TOP_VALUES"]⟩

/-- Claim C2, counterexample: for a response with
`extraction_succeeded = false` the scorer returns the numeric score `0.0`
even when the culture is `baseline` — the parse-failure rule fires before
the baseline rule — so it does not return the `None` sentinel for every
StructuredResponse as the claim states. -/
theorem claim_C2_counterexample :
    calculate_cultural_alignment mZero failedResp "baseline" [] = some 0 ∧
    (some (0 : ℝ) ≠ (none : Option ℝ)) := by
  refine ⟨?_, by simp⟩
  unfold calculate_cultural_alignment
  simp [failedResp]

/-- Claim C2, amended: for every successfully extracted response and every
relevant-dimension set, the scorer returns the `None` sentinel when the
culture is `baseline`. -/
theorem claim_C2_amended {α : Type} (m : SemanticModel α) (pr : ParsedResponse)
    (dims : List CulturalDimension) (h : pr.parse_success = true) :
    calculate_cultural_alignment m pr "baseline" dims = none := by
  unfold calculate_cultural_alignment
  simp [h]

/-- Witness for the amended claim C2 at the concrete sample response. -/
theorem claim_C2_witness :
    sampleResp.parse_success = true ∧
    calculate_cultural_alignment mZero sampleResp "baseline" [] = none :=
  ⟨rfl, claim_C2_amended mZero sampleResp [] rfl⟩

/-- Claim C6: whenever extraction failed the scorer returns exactly `0.0`,
for every culture identifier and every relevant-dimension set. -/
theorem claim_C6 {α : Type} (m : SemanticModel α) (pr : ParsedResponse)
    (culture : String) (dims : List CulturalDimension) (h : pr.parse_success = false) :
    calculate_cultural_alignment m pr culture dims = some 0 := by
  unfold calculate_cultural_alignment
  simp [h]

/-- Witness for claim C6 at a concrete failed response, against the
baseline pseudo-culture, a known culture, and an unknown culture. -/
theorem claim_C6_witness :
    failedResp.parse_success = false ∧
    calculate_cultural_alignment mZero failedResp "baseline" [] = some 0 ∧
    calculate_cultural_alignment mZero failedResp "Japan" [CulturalDimension.individualism] = some 0 ∧
    calculate_cultural_alignment mZero failedResp "Atlantis" [] = some 0 :=
  ⟨rfl, claim_C6 mZero failedResp "baseline" [] rfl,
   claim_C6 mZero failedResp "Japan" [CulturalDimension.individualism] rfl,
   claim_C6 mZero failedResp "Atlantis" [] rfl⟩

/-- Dropping the per-entry `Option.map` does not change how many
dimensions survive a `filterMap` over the reference profile. -/
lemma filterMap_map_length (dims : List CulturalDimension)
    (s : CulturalDimension → Option ℝ) (f : CulturalDimension → ℝ → ℝ) :
    (dims.filterMap (fun d => (s d).map (f d))).length =
      (dims.filterMap (fun d => s d)).length := by
  induction dims with
  | nil => rfl
  | cons a l ih =>
    cases hs : s a <;> simp [List.filterMap_cons, hs, ih]

/-- Pointwise dominance of squared differences lifts to the lists of
per-dimension squared differences collected by the scorer. -/
lemma distances_forall₂ (dims : List CulturalDimension)
    (s : CulturalDimension → Option ℝ) (f g : CulturalDimension → ℝ)
    (h : ∀ d ∈ dims, ∀ e, s d = some e → (e - g d) ^ 2 ≤ (e - f d) ^ 2) :
    List.Forall₂ (· ≤ ·)
      (dims.filterMap (fun d => (s d).map (fun e => (e - g d) ^ 2)))
      (dims.filterMap (fun d => (s d).map (fun e => (e - f d) ^ 2))) := by
  induction dims with
  | nil => exact List.Forall₂.nil
  | cons a l ih =>
    have ha := fun e he => h a (List.mem_cons_self a l) e he
    have hl := fun d hd e he => h d (List.mem_cons_of_mem a hd) e he
    cases hs : s a with
    | none => simpa [List.filterMap_cons, hs] using ih hl
    | some e =>
      simpa [List.filterMap_cons, hs] using List.Forall₂.cons (ha e hs) (ih hl)

/-- Sums respect pointwise list dominance. -/
lemma sum_le_of_forall₂ {l₁ l₂ : List ℝ} (h : List.Forall₂ (· ≤ ·) l₁ l₂) :
    l₁.sum ≤ l₂.sum := by
  induction h with
  | nil => exact le_refl 0
  | cons hab _ ih => simpa using add_le_add hab ih

/-- Claim C9: holding the culture, its reference profile and the
relevant-dimension set fixed (with at least one usable dimension), the
numeric alignment score is antitone in the per-dimension squared
differences: if a second (response, collaborator) pair has pointwise
smaller-or-equal squared distances to the reference values, its score is
greater or equal — `max(0, 10 - 2.5 * sqrt(mean))` decreases as the
squared differences grow. -/
theorem claim_C9 {α β : Type} (m₁ : SemanticModel α) (m₂ : SemanticModel β)
    (pr₁ pr₂ : ParsedResponse) (culture : String) (dims : List CulturalDimension)
    (ctx : CulturalContext)
    (h₁ : pr₁.parse_success = true) (h₂ : pr₂.parse_success = true)
    (hb : culture ≠ "baseline")
    (hc : lookupContext CULTURAL_CONTEXTS culture = some ctx)
    (hn : allScoresNone ctx.hofstede_scores = false)
    (hne : (dims.filterMap (fun d => ctx.hofstede_scores d)).isEmpty = false)
    (hmono : ∀ d ∈ dims, ∀ e, ctx.hofstede_scores d = some e →
      (e - _infer_cultural_profile m₂ pr₂ d) ^ 2 ≤ (e - _infer_cultural_profile m₁ pr₁ d) ^ 2) :
    ∃ s₁ s₂ : ℝ,
      calculate_cultural_alignment m₁ pr₁ culture dims = some s₁ ∧
      calculate_cultural_alignment m₂ pr₂ culture dims = some s₂ ∧
      s₁ ≤ s₂ := by
  have hlen₁ := filterMap_map_length dims ctx.hofstede_scores
    (fun d e => (e - _infer_cultural_profile m₁ pr₁ d) ^ 2)
  have hlen₂ := filterMap_map_length dims ctx.hofstede_scores
    (fun d e => (e - _infer_cultural_profile m₂ pr₂ d) ^ 2)
  have hune : dims.filterMap (fun d => ctx.hofstede_scores d) ≠ [] :=
    List.isEmpty_eq_false.mp hne
  have hlenpos : 0 < (dims.filterMap (fun d => ctx.hofstede_scores d)).length :=
    List.length_pos.mpr hune
  have hD₁ne : (dims.filterMap (fun d => (ctx.hofstede_scores d).map
      (fun e => (e - _infer_cultural_profile m₁ pr₁ d) ^ 2))) ≠ [] := by
    apply List.length_pos.mp
    rw [hlen₁]
    exact hlenpos
  have hD₂ne : (dims.filterMap (fun d => (ctx.hofstede_scores d).map
      (fun e => (e - _infer_cultural_profile m₂ pr₂ d) ^ 2))) ≠ [] := by
    apply List.length_pos.mp
    rw [hlen₂]
    exact hlenpos
  have hsum := sum_le_of_forall₂ (distances_forall₂ dims ctx.hofstede_scores
    (fun d => _infer_cultural_profile m₁ pr₁ d)
    (fun d => _infer_cultural_profile m₂ pr₂ d) hmono)
  unfold calculate_cultural_alignment
  rw [h₁, h₂, hc]
  simp only [Bool.not_true, Bool.false_eq_true, if_false, if_neg hb, hn,
    List.isEmpty_eq_false.mpr hD₁ne, List.isEmpty_eq_false.mpr hD₂ne]
  refine ⟨_, _, rfl, rfl, ?_⟩
  apply max_le_max (le_refl 0)
  apply sub_le_sub_left
  apply mul_le_mul_of_nonneg_right _ (by norm_num)
  apply Real.sqrt_le_sqrt
  rw [hlen₁, hlen₂]
  have hcast : (0 : ℝ) < ((dims.filterMap (fun d => ctx.hofstede_scores d)).length : ℝ) :=
    Nat.cast_pos.mpr hlenpos
  exact (div_le_div_iff_of_pos_right hcast).mpr hsum

/-- Witness for claim C9: the theorem applied with both sides the same
concrete response and collaborator against the `US` profile on the
individualism dimension (squared distances trivially dominate
themselves). -/
theorem claim_C9_witness :
    sampleResp.parse_success = true ∧ ("US" : String) ≠ "baseline" ∧
    lookupContext CULTURAL_CONTEXTS "US" = some usContext ∧
    allScoresNone usContext.hofstede_scores = false ∧
    ([CulturalDimension.individualism].filterMap
      (fun d => usContext.hofstede_scores d)).isEmpty = false ∧
    (∃ s₁ s₂ : ℝ,
      calculate_cultural_alignment mZero sampleResp "US" [CulturalDimension.individualism] = some s₁ ∧
      calculate_cultural_alignment mZero sampleResp "US" [CulturalDimension.individualism] = some s₂ ∧
      s₁ ≤ s₂) :=
  ⟨rfl, by decide, rfl, rfl, rfl,
    claim_C9 mZero mZero sampleResp sampleResp "US" [CulturalDimension.individualism]
      usContext rfl rfl (by decide) rfl rfl rfl
      (fun d _ e _ => le_refl ((e - _infer_cultural_profile mZero sampleResp d) ^ 2))⟩

/-! ### Claims about the Baseline Bias Estimator -/

/-- A successfully parsed baseline response (collectivist flavour). -/
def c1RespA : ParsedResponse :=
  ⟨"a", "I would respect my parents wishes", some "Option B", ["Family Harmony"], true, []⟩

/-- A successfully parsed baseline response (individualist flavour). -/
def c1RespB : ParsedResponse :=
  ⟨"b", "I value my own choice", some "Option A", ["Individual Freedom"], true, []⟩

/-- Primary decision dimensions of the scenarios `IND001` and `PDI001`
from `scenarios.py` (the scenario dataset is an external collaborator of
the core, looked up by identifier). -/
def c1PrimaryOf : String → Option CulturalDimension := fun sid =>
  if sid = "IND001" then some CulturalDimension.individualism
  else if sid = "PDI001" then some CulturalDimension.power_distance
  else none

/-- Union of the relevant dimensions of `IND001`
(`individualism, long_term_orientation, power_distance`) and `PDI001`
(`individualism, power_distance`), as assembled by the caller in
`main.py`. -/
def c1Dims : List CulturalDimension :=
  [.individualism, .long_term_orientation, .power_distance]

/-- Claim C1, counterexample: on two baseline responses whose scenarios
(`IND001`, `PDI001`) have different primary dimensions, the implementation
(fed, as its callers do, the union of the scenarios' relevant dimensions)
returns the `US` distance `sqrt(29/12)` computed over the shared
three-dimension list, while the claim's per-primary-dimension formula
yields `sqrt(5/2)` — and these differ. -/
theorem claim_C1_counterexample :
    lookupDistance "US" (calculate_baseline_bias mZero [c1RespA, c1RespB]
      CULTURAL_CONTEXTS c1Dims) = some (Real.sqrt (29 / 12)) ∧
    lookupDistance "US" (estimate_baseline_bias_spec mZero
      [(c1RespA, "IND001"), (c1RespB, "PDI001")] CULTURAL_CONTEXTS c1PrimaryOf) =
      some (Real.sqrt (5 / 2)) ∧
    Real.sqrt (29 / 12) ≠ Real.sqrt (5 / 2) := by
  refine ⟨?_, ?_, ?_⟩
  · unfold calculate_baseline_bias lookupDistance
    simp only [c1Dims, c1RespA, c1RespB, CULTURAL_CONTEXTS, baselineContext, usContext,
      japanContext, indiaContext, mexicoContext, uaeContext, baselineScores, usScores,
      japanScores, indiaScores, mexicoScores, uaeScores, allScoresNone, CULTURAL_DIMENSIONS,
      infer_mZero, tensorMean, List.filter, List.map, List.filterMap, List.find?,
      List.isEmpty, List.all, List.sum, List.length, Option.map, Option.isNone]
    norm_num
  · unfold estimate_baseline_bias_spec lookupDistance
    simp only [c1PrimaryOf, c1RespA, c1RespB, CULTURAL_CONTEXTS, baselineContext, usContext,
      japanContext, indiaContext, mexicoContext, uaeContext, baselineScores, usScores,
      japanScores, indiaScores, mexicoScores, uaeScores, allScoresNone, CULTURAL_DIMENSIONS,
      infer_mZero, List.filter, List.map, List.filterMap, List.find?,
      List.isEmpty, List.all, List.sum, List.length, Option.map, Option.isNone]
    norm_num
  · intro h
    have h2 : (29 / 12 : ℝ) = 5 / 2 := (Real.sqrt_inj (by norm_num) (by norm_num)).mp h
    norm_num at h2

/-- Claim C1, amended: every per-culture distance returned by
`calculate_baseline_bias` equals
`sqrt(mean over the dimensions of the shared scenario_dimensions argument
with a non-None reference value of (reference - avg)^2)`, where `avg` is
the per-dimension mean of the inferred profiles of the
successfully-extracted responses; the per-response scenario pairing and
its primary dimension are not consulted (the function does not receive
them), and only non-baseline cultures with a not-all-None profile and at
least one usable dimension are reported. -/
theorem claim_C1_amended {α : Type} (m : SemanticModel α) (rs : List ParsedResponse)
    (ctxs : List (String × CulturalContext)) (dims : List CulturalDimension)
    (culture : String) (r : ℝ)
    (h : (culture, r) ∈ calculate_baseline_bias m rs ctxs dims) :
    ∃ ctx : CulturalContext, (culture, ctx) ∈ ctxs ∧ culture ≠ "baseline" ∧
      allScoresNone ctx.hofstede_scores = false ∧
      rs.filter (fun p => p.parse_success) ≠ [] ∧
      dims.filterMap (fun d => ctx.hofstede_scores d) ≠ [] ∧
      r = Real.sqrt ((dims.filterMap (fun d => (ctx.hofstede_scores d).map
            (fun e => (e - tensorMean ((rs.filter (fun p => p.parse_success)).map
              (fun p => _infer_cultural_profile m p d))) ^ 2))).sum /
          (dims.filterMap (fun d => ctx.hofstede_scores d)).length) := by
  unfold calculate_baseline_bias at h
  by_cases hP : ((rs.filter (fun p => p.parse_success)).map
      (fun q => _infer_cultural_profile m q)).isEmpty
  · rw [if_pos hP] at h
    simp at h
  · rw [if_neg hP] at h
    have hPne : rs.filter (fun p => p.parse_success) ≠ [] := by
      intro hnil
      rw [hnil] at hP
      simp at hP
    obtain ⟨p, hpmem, hf⟩ := List.mem_filterMap.mp h
    simp only [] at hf
    split_ifs at hf with hb hn hd
    rw [Option.some.injEq, Prod.mk.injEq] at hf
    obtain ⟨hp1, hr⟩ := hf
    have hmapmap : (List.filterMap (fun dim => Option.map
        (fun e => (e - tensorMean (List.map (fun q => q dim)
          (List.map (fun q => _infer_cultural_profile m q)
            (List.filter (fun q => q.parse_success) rs)))) ^ 2)
        (p.2.hofstede_scores dim)) dims) =
        dims.filterMap (fun d => (p.2.hofstede_scores d).map
          (fun e => (e - tensorMean ((rs.filter (fun q => q.parse_success)).map
            (fun q => _infer_cultural_profile m q d))) ^ 2)) := by
      simp only [List.map_map]
      rfl
    rw [hmapmap] at hr hd
    have hdne : dims.filterMap (fun d => (p.2.hofstede_scores d).map
        (fun e => (e - tensorMean ((rs.filter (fun q => q.parse_success)).map
          (fun q => _infer_cultural_profile m q d))) ^ 2)) ≠ [] := by
      intro hnil
      rw [hnil] at hd
      simp at hd
    have hlen := filterMap_map_length dims p.2.hofstede_scores
      (fun d e => (e - tensorMean ((rs.filter (fun q => q.parse_success)).map
        (fun q => _infer_cultural_profile m q d))) ^ 2)
    have husable : dims.filterMap (fun d => p.2.hofstede_scores d) ≠ [] := by
      apply List.length_pos.mp
      rw [← hlen]
      exact List.length_pos.mpr hdne
    refine ⟨p.2, ?_, ?_, by simpa using hn, hPne, husable, ?_⟩
    · rw [← hp1, Prod.mk.eta]
      exact hpmem
    · rw [← hp1]
      exact hb
    · rw [← hr, hlen]

/-- Witness for the amended claim C1: a concrete `US` entry of the
estimator's output, with the amended characterization instantiated on
it. -/
theorem claim_C1_witness :
    (("US", Real.sqrt 4) ∈ calculate_baseline_bias mZero [c1RespA] CULTURAL_CONTEXTS
      [CulturalDimension.individualism]) ∧
    (∃ ctx : CulturalContext, ("US", ctx) ∈ CULTURAL_CONTEXTS ∧ ("US" : String) ≠ "baseline" ∧
      allScoresNone ctx.hofstede_scores = false ∧
      [c1RespA].filter (fun p => p.parse_success) ≠ [] ∧
      [CulturalDimension.individualism].filterMap (fun d => ctx.hofstede_scores d) ≠ [] ∧
      Real.sqrt 4 = Real.sqrt ((([CulturalDimension.individualism]).filterMap
            (fun d => (ctx.hofstede_scores d).map
              (fun e => (e - tensorMean (([c1RespA].filter (fun p => p.parse_success)).map
                (fun p => _infer_cultural_profile mZero p d))) ^ 2))).sum /
          (([CulturalDimension.individualism]).filterMap
            (fun d => ctx.hofstede_scores d)).length)) := by
  have hfind : (calculate_baseline_bias mZero [c1RespA] CULTURAL_CONTEXTS
      [CulturalDimension.individualism]).find? (fun p => p.1 == "US") =
      some ("US", Real.sqrt 4) := by
    unfold calculate_baseline_bias
    simp only [c1RespA, CULTURAL_CONTEXTS, baselineContext, usContext,
      japanContext, indiaContext, mexicoContext, uaeContext, baselineScores, usScores,
      japanScores, indiaScores, mexicoScores, uaeScores, allScoresNone, CULTURAL_DIMENSIONS,
      infer_mZero, tensorMean, List.filter, List.map, List.filterMap, List.find?,
      List.isEmpty, List.all, List.sum, List.length, Option.map, Option.isNone]
    norm_num
  have hmem := List.mem_of_find?_eq_some hfind
  exact ⟨hmem, claim_C1_amended mZero [c1RespA] CULTURAL_CONTEXTS
    [CulturalDimension.individualism] "US" (Real.sqrt 4) hmem⟩
